import Mathlib

/-!
# Verification of the Announcement Service (`src/backend/routers/announcements.py`)

Shallow embedding of the announcement router.  The MongoDB collection is a
`List Announcement`, the teacher directory a `List String` of teacher ids,
and each endpoint is a pure function from the request data (plus the
server-supplied clock value / generated ObjectId, passed as parameters) to
the resulting collection state and HTTP response.

Dates are compared the way the code compares them: MongoDB `$gte` on strings
and Python `<=` on strings are both code-point lexicographic comparison,
embedded here as `strLe`.  `datetime.strptime(s, "%Y-%m-%d")` is embedded as
`validDate` (4-digit year, 1- or 2-digit month in 1..12, 1- or 2-digit day
valid for the month, real calendar check with leap years, whole string
consumed).  `bson.ObjectId(s)` succeeds exactly on 24-character hex strings,
embedded as `parseObjectId` (normalising to lower case, since hex digits are
case-insensitive in an ObjectId).
-/

/-- Code-point lexicographic "less or equal" on character lists: this is the
comparison Python applies to `str` and MongoDB applies to string fields. -/
def charListLe : List Char → List Char → Bool
  | [], _ => true
  | _ :: _, [] => false
  | a :: as, b :: bs =>
    if a.toNat < b.toNat then true
    else if b.toNat < a.toNat then false
    else charListLe as bs

/-- String `<=` as Python / MongoDB evaluate it. -/
def strLe (s t : String) : Bool := charListLe s.data t.data

/-- Split a character list on `'-'` (every occurrence), as the strptime
format `"%Y-%m-%d"` segments its input. -/
def splitDash (cur : List Char) : List Char → List (List Char)
  | [] => [cur.reverse]
  | c :: cs => if c = '-' then cur.reverse :: splitDash [] cs else splitDash (c :: cur) cs

/-- Decimal value of a digit list (only applied to all-digit lists). -/
def digitsVal (acc : Nat) : List Char → Nat
  | [] => acc
  | c :: cs => digitsVal (acc * 10 + (c.toNat - '0'.toNat)) cs

def isLeapYear (y : Nat) : Bool := y % 4 == 0 && (y % 100 != 0 || y % 400 == 0)

def daysInMonth (y m : Nat) : Nat :=
  if m == 2 then (if isLeapYear y then 29 else 28)
  else if m == 4 || m == 6 || m == 9 || m == 11 then 30
  else 31

def allDigits (cs : List Char) : Bool := cs.all (·.isDigit)

/-- Embedding of `datetime.strptime(s, "%Y-%m-%d")` succeeding: exactly three dash-separated
digit groups, a 4-digit year `>= 1`, a 1- or 2-digit month in `1..12`, a
1- or 2-digit day in `1..days-in-month` (leap years accounted for). -/
def validDate (s : String) : Bool :=
  match splitDash [] s.data with
  | [y, m, d] =>
    y.length == 4 && allDigits y &&
    (m.length == 1 || m.length == 2) && allDigits m &&
    (d.length == 1 || d.length == 2) && allDigits d &&
    (let yn := digitsVal 0 y
     let mn := digitsVal 0 m
     let dn := digitsVal 0 d
     decide (1 ≤ yn) && decide (1 ≤ mn) && decide (mn ≤ 12) &&
     decide (1 ≤ dn) && decide (dn ≤ daysInMonth yn mn))
  | _ => false

def isHexChar (c : Char) : Bool :=
  c.isDigit || ('a' ≤ c && c ≤ 'f') || ('A' ≤ c && c ≤ 'F')

/-- Validity test of `bson.ObjectId(s)`: exactly 24 hex characters. -/
def isValidObjectId (s : String) : Bool :=
  s.data.length == 24 && s.data.all isHexChar

def hexLower (c : Char) : Char :=
  if c = 'A' then 'a' else if c = 'B' then 'b' else if c = 'C' then 'c'
  else if c = 'D' then 'd' else if c = 'E' then 'e' else if c = 'F' then 'f' else c

/-- Embedding of `ObjectId(announcement_id)`: `none` when the constructor raises
(`InvalidId`), otherwise the canonical (lower-case hex) id, which is what
equality against stored ids compares. -/
def parseObjectId (s : String) : Option String :=
  if isValidObjectId s then some ⟨s.data.map hexLower⟩ else none

/-- A stored announcement document, with the fields the router reads and
writes.  `priority`, `start_date` and `is_active` are `Option`s because the
create endpoint persists explicit JSON `null` for them when the client sends
one. -/
structure Announcement where
  _id : String
  title : String
  message : String
  priority : Option String
  start_date : Option String
  end_date : String
  created_by : String
  created_at : String
  is_active : Option Bool
deriving Repr, DecidableEq

/-- Request body of `POST /announcements` (`AnnouncementCreate`), after
pydantic parsing: omitted `priority` defaults to `"medium"`, omitted
`is_active` to `true`, omitted `start_date` to `null`. -/
structure AnnouncementCreate where
  title : String
  message : String
  priority : Option String := some "medium"
  start_date : Option String := none
  end_date : String
  is_active : Option Bool := some true
deriving Repr, DecidableEq

/-- Request body of `PUT /announcements/{id}` (`AnnouncementUpdate`).  Each
field is tri-state, as `dict(exclude_unset=True)` distinguishes absent
(`none`) from explicit null (`some none`) from a value (`some (some v)`). -/
structure AnnouncementUpdate where
  title : Option (Option String) := none
  message : Option (Option String) := none
  priority : Option (Option String) := none
  start_date : Option (Option String) := none
  end_date : Option (Option String) := none
  is_active : Option (Option Bool) := none
deriving Repr, DecidableEq

/-- A raised `HTTPException`. -/
structure HTTPException where
  status_code : Nat
  detail : String
deriving Repr, DecidableEq

/-- Embedding of `priority_order.get(x.get("priority", "medium"), 1)`: rank used as the
primary sort key of the active listing; anything other than the three known
strings (missing key, null, unrecognized string) ranks as `medium` = 1. -/
def priorityRank (p : Option String) : Nat :=
  match p with
  | some "high" => 0
  | some "low" => 2
  | _ => 1

/-- The composite sort key relation of `GET /announcements/active`:
Python tuple comparison on `(priority rank, created_at)`. -/
def activeOrder (a b : Announcement) : Prop :=
  priorityRank a.priority < priorityRank b.priority ∨
    (priorityRank a.priority = priorityRank b.priority ∧
      strLe a.created_at b.created_at = true)

instance : DecidableRel activeOrder := by
  unfold activeOrder; infer_instance

/-- Order by `created_at` descending, the sort of `GET /announcements` (list-all). -/
def createdAtDesc (a b : Announcement) : Prop :=
  strLe b.created_at a.created_at = true

instance : DecidableRel createdAtDesc := by
  unfold createdAtDesc; infer_instance

/-- Endpoint `GET /announcements/active`.  The MongoDB query keeps documents with
`is_active == true` and `end_date >= today`; the loop additionally drops
documents whose `start_date` is truthy (non-null, non-empty) and `> today`;
the result is sorted by `(priority rank, created_at)` with Python's stable
sort. -/
def get_active_announcements (db : List Announcement) (current_date : String) :
    List Announcement :=
  let queryResults := db.filter fun a =>
    a.is_active == some true && strLe current_date a.end_date
  let announcements := queryResults.filter fun a =>
    match a.start_date with
    | some s => if s == "" then true else strLe s current_date
    | none => true
  List.insertionSort activeOrder announcements

/-- Endpoint `GET /announcements` (list-all): teacher gate (missing or empty
username → 401 "Authentication required", unknown username → 401 "Invalid
teacher credentials"), then every document sorted by `created_at`
descending. -/
def get_all_announcements (teachers : List String) (db : List Announcement)
    (teacher_username : Option String) : Except HTTPException (List Announcement) :=
  match teacher_username with
  | none => .error ⟨401, "Authentication required for this action"⟩
  | some u =>
    if u == "" then .error ⟨401, "Authentication required for this action"⟩
    else if teachers.contains u then .ok (List.insertionSort createdAtDesc db)
    else .error ⟨401, "Invalid teacher credentials"⟩

/-- Endpoint `POST /announcements`.  `now` is `datetime.now().isoformat()` and
`newId` is the ObjectId the store assigns (its string rendering); the 500
branch mirrors `if not result.inserted_id`.  Date validation mirrors the
Python truthiness test `if announcement_data.start_date:` — an empty-string
`start_date` skips `strptime` entirely. -/
def create_announcement (teachers : List String) (db : List Announcement)
    (announcement_data : AnnouncementCreate) (teacher_username : String)
    (now : String) (newId : String) :
    List Announcement × Except HTTPException String :=
  if teachers.contains teacher_username then
    if (match announcement_data.start_date with
        | some s => s != "" && !validDate s
        | none => false) || !validDate announcement_data.end_date then
      (db, .error ⟨400, "Invalid date format. Use YYYY-MM-DD"⟩)
    else
      let announcement_doc : Announcement :=
        { _id := newId
          title := announcement_data.title
          message := announcement_data.message
          priority := announcement_data.priority
          start_date := announcement_data.start_date
          end_date := announcement_data.end_date
          created_by := teacher_username
          created_at := now
          is_active := announcement_data.is_active }
      let db' := db ++ [announcement_doc]
      if newId = "" then (db', .error ⟨500, "Failed to create announcement"⟩)
      else (db', .ok newId)
  else (db, .error ⟨401, "Invalid teacher credentials"⟩)

/-- The value a field of `AnnouncementUpdate` contributes to `update_data`:
`none` when the field was absent (`exclude_unset`) or explicit null
(`if value is not None`), otherwise the supplied value. -/
def sentValue (x : Option (Option α)) : Option α := x.bind id

/-- A supplied date field fails `strptime` validation: non-null, non-empty
(Python truthiness `and value`), and not a valid date. -/
def dateFieldBad (x : Option (Option String)) : Bool :=
  match sentValue x with
  | some v => v != "" && !validDate v
  | none => false

/-- The `update_data` dict: the fields the `PUT` handler will `$set`. -/
structure UpdateData where
  title : Option String := none
  message : Option String := none
  priority : Option String := none
  start_date : Option String := none
  end_date : Option String := none
  is_active : Option Bool := none
deriving Repr, DecidableEq

/-- Test `if not update_data:` — no field survived the filtering. -/
def isEmptyUpdate (ud : UpdateData) : Bool :=
  ud.title.isNone && ud.message.isNone && ud.priority.isNone &&
    ud.start_date.isNone && ud.end_date.isNone && ud.is_active.isNone

/-- The field loop of the `PUT` handler: skip absent and null fields,
validate non-empty date values (the loop visits fields in declaration
order, so a bad `start_date` is reported before a bad `end_date`), and
collect the surviving values. -/
def buildUpdateData (d : AnnouncementUpdate) : Except HTTPException UpdateData :=
  if dateFieldBad d.start_date then
    .error ⟨400, "Invalid start_date format. Use YYYY-MM-DD"⟩
  else if dateFieldBad d.end_date then
    .error ⟨400, "Invalid end_date format. Use YYYY-MM-DD"⟩
  else
    .ok { title := sentValue d.title
          message := sentValue d.message
          priority := sentValue d.priority
          start_date := sentValue d.start_date
          end_date := sentValue d.end_date
          is_active := sentValue d.is_active }

/-- Effect of `update_one` with a `$set` of `update_data` on one document. -/
def applyUpdate (r : Announcement) (ud : UpdateData) : Announcement :=
  { r with
    title := ud.title.getD r.title
    message := ud.message.getD r.message
    priority := match ud.priority with | some v => some v | none => r.priority
    start_date := match ud.start_date with | some v => some v | none => r.start_date
    end_date := ud.end_date.getD r.end_date
    is_active := match ud.is_active with | some v => some v | none => r.is_active }

/-- Replace the first document whose `_id` is `oid` (the one
`update_one` modifies; `_id` is a unique index in MongoDB). -/
def replaceFirst : List Announcement → String → Announcement → List Announcement
  | [], _, _ => []
  | r :: rest, oid, newRec =>
    if r._id == oid then newRec :: rest else r :: replaceFirst rest oid newRec

/-- Remove the first document whose `_id` is `oid` (`delete_one`). -/
def removeFirst : List Announcement → String → List Announcement
  | [], _ => []
  | r :: rest, oid => if r._id == oid then rest else r :: removeFirst rest oid

/-- Endpoint `PUT /announcements/{announcement_id}`.  Teacher gate, `ObjectId` parse
(failure → 400 "Invalid announcement ID"), `find_one` (miss → 404), field
filtering and date validation, `if not update_data` → 400, `$set`, and
`modified_count == 0` → 500 (`$set` with values identical to the stored
ones modifies nothing). -/
def update_announcement (teachers : List String) (db : List Announcement)
    (announcement_id : String) (announcement_data : AnnouncementUpdate)
    (teacher_username : String) :
    List Announcement × Except HTTPException String :=
  if teachers.contains teacher_username then
    match parseObjectId announcement_id with
    | none => (db, .error ⟨400, "Invalid announcement ID"⟩)
    | some oid =>
      match db.find? (fun r => r._id == oid) with
      | none => (db, .error ⟨404, "Announcement not found"⟩)
      | some announcement =>
        match buildUpdateData announcement_data with
        | .error e => (db, .error e)
        | .ok update_data =>
          if isEmptyUpdate update_data then
            (db, .error ⟨400, "No valid fields to update"⟩)
          else
            if applyUpdate announcement update_data = announcement then
              (replaceFirst db oid (applyUpdate announcement update_data),
                .error ⟨500, "Failed to update announcement"⟩)
            else
              (replaceFirst db oid (applyUpdate announcement update_data),
                .ok "Announcement updated successfully")
  else (db, .error ⟨401, "Invalid teacher credentials"⟩)

/-- Endpoint `DELETE /announcements/{announcement_id}`.  Teacher gate, `ObjectId`
parse (failure → 400 "Invalid announcement ID"), `delete_one`, and
`deleted_count == 0` → 404. -/
def delete_announcement (teachers : List String) (db : List Announcement)
    (announcement_id : String) (teacher_username : String) :
    List Announcement × Except HTTPException String :=
  if teachers.contains teacher_username then
    match parseObjectId announcement_id with
    | none => (db, .error ⟨400, "Invalid announcement ID"⟩)
    | some oid =>
      if db.any (fun r => r._id == oid) then
        (removeFirst db oid, .ok "Announcement deleted successfully")
      else (db, .error ⟨404, "Announcement not found"⟩)
  else (db, .error ⟨401, "Invalid teacher credentials"⟩)


/-- Predicate for `if not update_data:` holding: every field is absent or
explicit null, so the filtering leaves nothing to change. -/
def noFieldsSent (d : AnnouncementUpdate) : Bool :=
  (sentValue d.title).isNone && (sentValue d.message).isNone &&
    (sentValue d.priority).isNone && (sentValue d.start_date).isNone &&
    (sentValue d.end_date).isNone && (sentValue d.is_active).isNone

/-- A date value as the code can actually store it: empty or parseable. -/
def dateEmptyOrValid (s : String) : Bool := s == "" || validDate s

/-- The date shape every record reachable through the endpoints satisfies:
`end_date` empty or valid, `start_date` absent, empty or valid. -/
def dateInvariant (a : Announcement) : Bool :=
  dateEmptyOrValid a.end_date && a.start_date.all dateEmptyOrValid


/-! ## Sample data used by witnesses and counterexamples -/

def sampleOid : String := "0123456789abcdef01234567"

def sampleOid2 : String := "aaaaaaaaaaaaaaaaaaaaaaaa"

def sampleOid3 : String := "bbbbbbbbbbbbbbbbbbbbbbbb"

def sampleRec : Announcement :=
  ⟨sampleOid, "Exam week", "Good luck", some "medium", none, "2025-12-31",
    "teacher1", "2025-01-01T00:00:00", some true⟩

def sampleHigh : Announcement :=
  ⟨sampleOid2, "Fire drill", "Gym closed", some "high", none, "2025-12-31",
    "teacher1", "2025-01-02T00:00:00", some true⟩

def sampleInactive : Announcement :=
  ⟨sampleOid3, "Old news", "Over", some "high", none, "2025-12-31",
    "teacher1", "2025-01-01T00:00:00", some false⟩

/-! ## Order lemmas for the sort comparators -/

theorem strLe_empty_left (t : String) : strLe "" t = true := rfl

theorem charListLe_trans : ∀ as bs cs : List Char,
    charListLe as bs = true → charListLe bs cs = true → charListLe as cs = true := by
  intro as
  induction as with
  | nil => intro _ _ _ _; rfl
  | cons a as ih =>
    intro bs cs h1 h2
    match bs, cs with
    | [], _ => simp [charListLe] at h1
    | b :: bs, [] => simp [charListLe] at h2
    | b :: bs, c :: cs =>
      simp only [charListLe] at h1 h2 ⊢
      by_cases h1ab : a.toNat < b.toNat
      · by_cases h2bc : b.toNat < c.toNat
        · have hac : a.toNat < c.toNat := Nat.lt_trans h1ab h2bc
          simp [hac]
        · rw [if_neg h2bc] at h2
          by_cases h2cb : c.toNat < b.toNat
          · rw [if_pos h2cb] at h2; exact absurd h2 (by simp)
          · have hbc : b.toNat = c.toNat :=
              Nat.le_antisymm (Nat.le_of_not_lt h2cb) (Nat.le_of_not_lt h2bc)
            have hac : a.toNat < c.toNat := hbc ▸ h1ab
            simp [hac]
      · rw [if_neg h1ab] at h1
        by_cases h1ba : b.toNat < a.toNat
        · rw [if_pos h1ba] at h1; exact absurd h1 (by simp)
        · rw [if_neg h1ba] at h1
          have hab : a.toNat = b.toNat :=
            Nat.le_antisymm (Nat.le_of_not_lt h1ba) (Nat.le_of_not_lt h1ab)
          by_cases h2bc : b.toNat < c.toNat
          · have hac : a.toNat < c.toNat := hab ▸ h2bc
            simp [hac]
          · rw [if_neg h2bc] at h2
            by_cases h2cb : c.toNat < b.toNat
            · rw [if_pos h2cb] at h2; exact absurd h2 (by simp)
            · rw [if_neg h2cb] at h2
              have hbc : b.toNat = c.toNat :=
                Nat.le_antisymm (Nat.le_of_not_lt h2cb) (Nat.le_of_not_lt h2bc)
              have hac : a.toNat = c.toNat := hab.trans hbc
              rw [if_neg (by omega), if_neg (by omega)]
              exact ih bs cs h1 h2

theorem charListLe_total : ∀ as bs : List Char,
    charListLe as bs = true ∨ charListLe bs as = true := by
  intro as
  induction as with
  | nil => intro bs; exact Or.inl rfl
  | cons a as ih =>
    intro bs
    match bs with
    | [] => exact Or.inr rfl
    | b :: bs =>
      simp only [charListLe]
      by_cases hab : a.toNat < b.toNat
      · exact Or.inl (by simp [hab])
      · by_cases hba : b.toNat < a.toNat
        · exact Or.inr (by simp [hba])
        · rcases ih bs with h | h
          · exact Or.inl (by rw [if_neg hab, if_neg hba]; exact h)
          · exact Or.inr (by rw [if_neg hba, if_neg hab]; exact h)

theorem strLe_trans {s t v : String} (h1 : strLe s t = true) (h2 : strLe t v = true) :
    strLe s v = true :=
  charListLe_trans s.data t.data v.data h1 h2

theorem strLe_total (s t : String) : strLe s t = true ∨ strLe t s = true :=
  charListLe_total s.data t.data

instance : IsTrans Announcement activeOrder := by
  constructor
  intro a b c hab hbc
  unfold activeOrder at *
  rcases hab with h1 | ⟨e1, s1⟩ <;> rcases hbc with h2 | ⟨e2, s2⟩
  · exact Or.inl (Nat.lt_trans h1 h2)
  · exact Or.inl (e2 ▸ h1)
  · exact Or.inl (e1 ▸ h2)
  · exact Or.inr ⟨e1.trans e2, strLe_trans s1 s2⟩

instance : IsTotal Announcement activeOrder := by
  constructor
  intro a b
  unfold activeOrder
  rcases Nat.lt_trichotomy (priorityRank a.priority) (priorityRank b.priority) with h | h | h
  · exact Or.inl (Or.inl h)
  · rcases strLe_total a.created_at b.created_at with hs | hs
    · exact Or.inl (Or.inr ⟨h, hs⟩)
    · exact Or.inr (Or.inr ⟨h.symm, hs⟩)
  · exact Or.inr (Or.inl h)

instance : IsTrans Announcement createdAtDesc := by
  constructor
  intro a b c hab hbc
  unfold createdAtDesc at *
  exact strLe_trans hbc hab

instance : IsTotal Announcement createdAtDesc := by
  constructor
  intro a b
  unfold createdAtDesc
  rcases strLe_total b.created_at a.created_at with h | h
  · exact Or.inl h
  · exact Or.inr h

/-! ## Claims -/

/-- C1: `GET /announcements/active` returns exactly the stored records with
`is_active = true`, `end_date >= today` (string comparison on `YYYY-MM-DD`),
and `start_date` absent or `<= today`; in particular a record with
`is_active = false` is never returned, regardless of dates. -/
theorem active_listing_membership (db : List Announcement) (today : String) (a : Announcement) :
    a ∈ get_active_announcements db today ↔
      a ∈ db ∧ a.is_active = some true ∧ strLe today a.end_date = true ∧
        (a.start_date = none ∨ ∃ s, a.start_date = some s ∧ strLe s today = true) := by
  simp only [get_active_announcements, List.mem_insertionSort, List.mem_filter,
    Bool.and_eq_true, beq_iff_eq]
  constructor
  · rintro ⟨⟨hmem, hact, hend⟩, hstart⟩
    refine ⟨hmem, hact, hend, ?_⟩
    rcases hsd : a.start_date with _ | s
    · exact Or.inl rfl
    · rw [hsd] at hstart
      by_cases hse : s = ""
      · exact Or.inr ⟨s, rfl, by rw [hse]; exact strLe_empty_left today⟩
      · simp only [hse, if_false, beq_iff_eq] at hstart
        exact Or.inr ⟨s, rfl, hstart⟩
  · rintro ⟨hmem, hact, hend, hstart⟩
    refine ⟨⟨hmem, hact, hend⟩, ?_⟩
    rcases hstart with hnone | ⟨s, hs, hle⟩
    · simp [hnone]
    · rw [hs]
      by_cases hse : s = "" <;> simp [hse, hle]

/-- C2: the output of the active listing is sorted by the composite key
(primary: priority rank with high = 0, medium = 1, low = 2, unrecognized
treated as medium; secondary: `created_at` ascending); hence along the
output the priority rank never decreases — every high-priority record
precedes every medium one, which precedes every low one, ties broken by
ascending `created_at`. -/
theorem active_listing_sorted (db : List Announcement) (today : String) :
    List.Pairwise
      (fun a b =>
        priorityRank a.priority < priorityRank b.priority ∨
          (priorityRank a.priority = priorityRank b.priority ∧
            strLe a.created_at b.created_at = true))
      (get_active_announcements db today) ∧
    ∀ (l1 l2 : List Announcement) (a b : Announcement),
      get_active_announcements db today = l1 ++ a :: l2 → b ∈ l2 →
        priorityRank a.priority ≤ priorityRank b.priority := by
  have hs : List.Sorted activeOrder (get_active_announcements db today) := by
    unfold get_active_announcements
    exact List.sorted_insertionSort activeOrder _
  constructor
  · exact hs
  · intro l1 l2 a b heq hb
    have hp := hs
    rw [heq] at hp
    have h2 := (List.pairwise_append.mp hp).2.1
    have h3 := (List.pairwise_cons.mp h2).1 b hb
    rcases h3 with h | ⟨h, _⟩
    · exact Nat.le_of_lt h
    · exact Nat.le_of_eq h

/-- C2 witness: a concrete active listing, its decomposition around the
high-priority head, and the rank inequality the theorem yields there. -/
theorem active_listing_sorted_witness :
    get_active_announcements [sampleRec, sampleInactive, sampleHigh] "2025-06-01" =
      [] ++ sampleHigh :: [sampleRec] ∧
    sampleRec ∈ [sampleRec] ∧
    priorityRank sampleHigh.priority ≤ priorityRank sampleRec.priority := by
  have h1 : get_active_announcements [sampleRec, sampleInactive, sampleHigh] "2025-06-01" =
      [] ++ sampleHigh :: [sampleRec] := by decide
  have h2 : sampleRec ∈ [sampleRec] := by decide
  exact ⟨h1, h2,
    (active_listing_sorted [sampleRec, sampleInactive, sampleHigh] "2025-06-01").2
      [] [sampleRec] sampleHigh sampleRec h1 h2⟩

/-- C3 counterexample: an update whose target identifier is not a
syntactically valid ObjectId is rejected with status 400 ("Invalid
announcement ID"), not with the 404 not-found condition the claim
asserts. -/
theorem update_invalid_id_is_400_not_404 :
    update_announcement ["teacher1"] [] "zz" {} "teacher1" =
      ([], Except.error ⟨400, "Invalid announcement ID"⟩) ∧
    (400 : Nat) ≠ 404 := by
  constructor
  · rfl
  · decide

/-- C3 amended: for an authorized caller, an update with a syntactically
invalid target identifier fails with 400 "Invalid announcement ID", while a
well-formed identifier matching no record fails with 404 "Announcement not
found"; both are client (4xx) errors, but their reported conditions are
distinct, and in both cases the collection is unchanged. -/
theorem update_target_id_errors (teachers : List String) (db : List Announcement)
    (id : String) (payload : AnnouncementUpdate) (u : String)
    (hu : teachers.contains u = true) :
    (parseObjectId id = none →
      update_announcement teachers db id payload u =
        (db, Except.error ⟨400, "Invalid announcement ID"⟩) ∧ 400 / 100 = 4) ∧
    (∀ oid, parseObjectId id = some oid →
      db.find? (fun r => r._id == oid) = none →
      update_announcement teachers db id payload u =
        (db, Except.error ⟨404, "Announcement not found"⟩) ∧ 404 / 100 = 4) := by
  have hm : u ∈ teachers := by simpa using hu
  constructor
  · intro hp
    refine ⟨?_, by decide⟩
    simp [update_announcement, hm, hp]
  · intro oid hp hf
    refine ⟨?_, by decide⟩
    simp [update_announcement, hm, hp, hf]

/-- C3 witness: a well-formed identifier absent from the collection makes
the update fail with 404. -/
theorem update_target_id_errors_witness :
    (["teacher1"].contains "teacher1" = true) ∧
    parseObjectId sampleOid2 = some sampleOid2 ∧
    update_announcement ["teacher1"] [] sampleOid2 {} "teacher1" =
      ([], Except.error ⟨404, "Announcement not found"⟩) := by
  refine ⟨by decide, by decide, ?_⟩
  exact ((update_target_id_errors ["teacher1"] [] sampleOid2 {} "teacher1"
    (by decide)).2 sampleOid2 (by decide) rfl).1

/-- C4 counterexample: a supplied `start_date` of `""` does not parse as
`YYYY-MM-DD`, yet create succeeds (no 400) and persists the record, because
the handler only validates a *truthy* `start_date`. -/
theorem create_empty_start_date_persisted :
    validDate "" = false ∧
    create_announcement ["teacher1"] []
        { title := "T", message := "M", start_date := some "", end_date := "2024-01-02" }
        "teacher1" "2024-01-01T00:00:00" sampleOid =
      ([⟨sampleOid, "T", "M", some "medium", some "", "2024-01-02",
          "teacher1", "2024-01-01T00:00:00", some true⟩],
        Except.ok sampleOid) := by
  constructor
  · rfl
  · rfl

/-- C4 amended: create fails with 401 "Invalid teacher credentials" when the
staff identifier does not resolve, and with 400 "Invalid date format" when
`end_date` does not parse or a supplied *non-empty* `start_date` does not
parse (an empty-string `start_date` bypasses validation); in each failure
case the collection is unchanged — no record is persisted. -/
theorem create_announcement_errors (teachers : List String) (db : List Announcement)
    (payload : AnnouncementCreate) (u now newId : String) :
    (teachers.contains u = false →
      create_announcement teachers db payload u now newId =
        (db, Except.error ⟨401, "Invalid teacher credentials"⟩)) ∧
    (teachers.contains u = true →
      (validDate payload.end_date = false ∨
        (∃ s, payload.start_date = some s ∧ s ≠ "" ∧ validDate s = false)) →
      create_announcement teachers db payload u now newId =
        (db, Except.error ⟨400, "Invalid date format. Use YYYY-MM-DD"⟩)) := by
  constructor
  · intro h
    have hn : ¬ u ∈ teachers := by
      intro hmem
      simp [hmem] at h
    simp [create_announcement, hn]
  · intro hu hbad
    have hm : u ∈ teachers := by simpa using hu
    rcases hbad with hend | ⟨s, hs, hne, hv⟩
    · simp [create_announcement, hm, hend]
    · simp [create_announcement, hm, hs, hne, hv]

/-- C4 witness: the unknown-teacher run yields 401, the invalid-month
`end_date` run yields 400, and both leave the collection empty. -/
theorem create_announcement_errors_witness :
    ((["teacher1"] : List String).contains "nobody" = false ∧
      create_announcement ["teacher1"] []
          { title := "T", message := "M", end_date := "2024-01-02" }
          "nobody" "2024-01-01T00:00:00" sampleOid =
        ([], Except.error ⟨401, "Invalid teacher credentials"⟩)) ∧
    ((["teacher1"] : List String).contains "teacher1" = true ∧
      validDate "2024-13-01" = false ∧
      create_announcement ["teacher1"] []
          { title := "T", message := "M", end_date := "2024-13-01" }
          "teacher1" "2024-01-01T00:00:00" sampleOid =
        ([], Except.error ⟨400, "Invalid date format. Use YYYY-MM-DD"⟩)) := by
  refine ⟨⟨by decide, ?_⟩, by decide, by decide, ?_⟩
  · exact (create_announcement_errors ["teacher1"] []
      { title := "T", message := "M", end_date := "2024-01-02" }
      "nobody" "2024-01-01T00:00:00" sampleOid).1 (by decide)
  · exact (create_announcement_errors ["teacher1"] []
      { title := "T", message := "M", end_date := "2024-13-01" }
      "teacher1" "2024-01-01T00:00:00" sampleOid).2 (by decide) (Or.inl (by decide))

/-- C5: after a successful create, list-all (run by any authorized viewer)
returns a record whose fields equal the input fields, plus the
server-assigned `id`, `created_by` and `created_at`; `created_by` is the
authenticated staff identifier passed to create — the request body carries
no such field, so it can never come from the client. -/
theorem create_then_list_all_roundtrip (teachers : List String) (db : List Announcement)
    (payload : AnnouncementCreate) (u viewer now newId : String)
    (hu : teachers.contains u = true) (hv : teachers.contains viewer = true)
    (hve : viewer ≠ "")
    (hstart : ∀ s, payload.start_date = some s → s ≠ "" → validDate s = true)
    (hend : validDate payload.end_date = true)
    (hid : newId ≠ "") :
    ∃ db' lst, create_announcement teachers db payload u now newId = (db', Except.ok newId) ∧
      get_all_announcements teachers db' (some viewer) = Except.ok lst ∧
      ∃ r, r ∈ lst ∧ r.title = payload.title ∧ r.message = payload.message ∧
        r.priority = payload.priority ∧ r.start_date = payload.start_date ∧
        r.end_date = payload.end_date ∧ r.is_active = payload.is_active ∧
        r._id = newId ∧ r.created_by = u ∧ r.created_at = now := by
  have hvm : viewer ∈ teachers := by simpa using hv
  have hstartb : (match payload.start_date with
      | some s => s != "" && !validDate s
      | none => false) = false := by
    rcases hsd : payload.start_date with _ | s
    · rfl
    · by_cases hse : s = ""
      · subst hse; simp
      · have hval := hstart s hsd hse
        simp [hval]
  have hcond : ((match payload.start_date with
      | some s => s != "" && !validDate s
      | none => false) || !validDate payload.end_date) = false := by
    rw [hstartb, hend]; rfl
  refine ⟨db ++ [⟨newId, payload.title, payload.message, payload.priority,
      payload.start_date, payload.end_date, u, now, payload.is_active⟩],
    List.insertionSort createdAtDesc (db ++ [⟨newId, payload.title, payload.message,
      payload.priority, payload.start_date, payload.end_date, u, now, payload.is_active⟩]),
    ?_, ?_, ?_⟩
  · simp only [create_announcement]
    rw [if_pos hu, if_neg (by simp [hcond]), if_neg hid]
  · simp [get_all_announcements, hve, hvm]
  · refine ⟨⟨newId, payload.title, payload.message, payload.priority,
      payload.start_date, payload.end_date, u, now, payload.is_active⟩,
      ?_, rfl, rfl, rfl, rfl, rfl, rfl, rfl, rfl, rfl⟩
    rw [List.mem_insertionSort]
    simp

/-- C5 witness: a concrete create followed by list-all exhibits the
round-trip record. -/
theorem create_then_list_all_roundtrip_witness :
    (["teacher1"] : List String).contains "teacher1" = true ∧
    validDate "2024-01-02" = true ∧ sampleOid ≠ "" ∧
    ∃ db' lst,
      create_announcement ["teacher1"] []
          { title := "T", message := "M", end_date := "2024-01-02" }
          "teacher1" "2024-01-01T00:00:00" sampleOid = (db', Except.ok sampleOid) ∧
      get_all_announcements ["teacher1"] db' (some "teacher1") = Except.ok lst ∧
      ∃ r, r ∈ lst ∧
        r.title = ({ title := "T", message := "M", end_date := "2024-01-02" } : AnnouncementCreate).title ∧
        r.message = ({ title := "T", message := "M", end_date := "2024-01-02" } : AnnouncementCreate).message ∧
        r.priority = ({ title := "T", message := "M", end_date := "2024-01-02" } : AnnouncementCreate).priority ∧
        r.start_date = ({ title := "T", message := "M", end_date := "2024-01-02" } : AnnouncementCreate).start_date ∧
        r.end_date = ({ title := "T", message := "M", end_date := "2024-01-02" } : AnnouncementCreate).end_date ∧
        r.is_active = ({ title := "T", message := "M", end_date := "2024-01-02" } : AnnouncementCreate).is_active ∧
        r._id = sampleOid ∧ r.created_by = "teacher1" ∧ r.created_at = "2024-01-01T00:00:00" := by
  refine ⟨by decide, by decide, by decide, ?_⟩
  exact create_then_list_all_roundtrip ["teacher1"] []
    { title := "T", message := "M", end_date := "2024-01-02" }
    "teacher1" "teacher1" "2024-01-01T00:00:00" sampleOid
    (by decide) (by decide) (by decide)
    (fun s hs _ => absurd hs (by simp)) (by decide) (by decide)

/-! ## Helper lemmas about the update path -/

theorem mem_replaceFirst {db : List Announcement} {oid : String}
    {newRec a : Announcement} (h : a ∈ replaceFirst db oid newRec) :
    a = newRec ∨ a ∈ db := by
  induction db with
  | nil => simp [replaceFirst] at h
  | cons r rest ih =>
    simp only [replaceFirst] at h
    by_cases hr : (r._id == oid) = true
    · rw [if_pos hr] at h
      rcases List.mem_cons.mp h with h1 | h1
      · exact Or.inl h1
      · exact Or.inr (List.mem_cons_of_mem _ h1)
    · rw [if_neg hr] at h
      rcases List.mem_cons.mp h with h1 | h1
      · exact Or.inr (h1 ▸ List.mem_cons_self _ _)
      · rcases ih h1 with h2 | h2
        · exact Or.inl h2
        · exact Or.inr (List.mem_cons_of_mem _ h2)

theorem buildUpdateData_ok {d : AnnouncementUpdate} {ud : UpdateData}
    (h : buildUpdateData d = Except.ok ud) :
    ud.title = sentValue d.title ∧ ud.message = sentValue d.message ∧
    ud.priority = sentValue d.priority ∧ ud.start_date = sentValue d.start_date ∧
    ud.end_date = sentValue d.end_date ∧ ud.is_active = sentValue d.is_active := by
  unfold buildUpdateData at h
  by_cases h1 : dateFieldBad d.start_date = true
  · rw [if_pos h1] at h; cases h
  · rw [if_neg h1] at h
    by_cases h2 : dateFieldBad d.end_date = true
    · rw [if_pos h2] at h; cases h
    · rw [if_neg h2] at h
      cases h
      exact ⟨rfl, rfl, rfl, rfl, rfl, rfl⟩

/-- Any date value a successful field filtering lets through is either the
empty string or a valid date. -/
theorem buildUpdateData_date_ok {d : AnnouncementUpdate} {ud : UpdateData}
    (h : buildUpdateData d = Except.ok ud) :
    (∀ v, ud.start_date = some v → v = "" ∨ validDate v = true) ∧
    (∀ v, ud.end_date = some v → v = "" ∨ validDate v = true) := by
  unfold buildUpdateData at h
  by_cases h1 : dateFieldBad d.start_date = true
  · rw [if_pos h1] at h; cases h
  · rw [if_neg h1] at h
    by_cases h2 : dateFieldBad d.end_date = true
    · rw [if_pos h2] at h; cases h
    · rw [if_neg h2] at h
      cases h
      constructor
      · intro v hv
        simp only at hv
        unfold dateFieldBad at h1
        rw [hv] at h1
        by_cases hve : v = ""
        · exact Or.inl hve
        · refine Or.inr ?_
          simp [hve] at h1
          exact h1
      · intro v hv
        simp only at hv
        unfold dateFieldBad at h2
        rw [hv] at h2
        by_cases hve : v = ""
        · exact Or.inl hve
        · refine Or.inr ?_
          simp [hve] at h2
          exact h2

theorem update_ok_shape {teachers : List String} {db : List Announcement}
    {id : String} {payload : AnnouncementUpdate} {u : String}
    {db' : List Announcement} {msg : String}
    (h : update_announcement teachers db id payload u = (db', Except.ok msg)) :
    ∃ oid old ud, parseObjectId id = some oid ∧
      db.find? (fun r => r._id == oid) = some old ∧
      buildUpdateData payload = Except.ok ud ∧
      isEmptyUpdate ud = false ∧
      applyUpdate old ud ≠ old ∧
      db' = replaceFirst db oid (applyUpdate old ud) := by
  unfold update_announcement at h
  split at h
  · split at h
    next hp => simp at h
    next oid hp =>
      split at h
      next hf => simp at h
      next old hf =>
        split at h
        next e hb => simp at h
        next ud hb =>
          split at h
          next he => simp at h
          next he =>
            split at h
            next hn => simp at h
            next hn =>
              refine ⟨oid, old, ud, hp, hf, hb, by simpa using he, hn, ?_⟩
              injection h with h1 h2
              exact h1.symm
  · simp at h

/-- C6: in an update, fields absent from the payload and fields supplied as
explicit null are both skipped — the stored field is left untouched; and if
no field survives the filtering, the update fails with 400 "No valid fields
to update" and the collection (hence the target record) is unchanged. -/
theorem update_skips_absent_and_null (teachers : List String) (db : List Announcement)
    (id : String) (payload : AnnouncementUpdate) (u oid : String) (old : Announcement)
    (hu : teachers.contains u = true)
    (hp : parseObjectId id = some oid)
    (hf : db.find? (fun r => r._id == oid) = some old) :
    (noFieldsSent payload = true →
      update_announcement teachers db id payload u =
        (db, Except.error ⟨400, "No valid fields to update"⟩)) ∧
    (∀ db' msg, update_announcement teachers db id payload u = (db', Except.ok msg) →
      ∃ new, db' = replaceFirst db oid new ∧
        ((payload.title = none ∨ payload.title = some none) → new.title = old.title) ∧
        ((payload.message = none ∨ payload.message = some none) → new.message = old.message) ∧
        ((payload.priority = none ∨ payload.priority = some none) →
          new.priority = old.priority) ∧
        ((payload.start_date = none ∨ payload.start_date = some none) →
          new.start_date = old.start_date) ∧
        ((payload.end_date = none ∨ payload.end_date = some none) →
          new.end_date = old.end_date) ∧
        ((payload.is_active = none ∨ payload.is_active = some none) →
          new.is_active = old.is_active)) := by
  have hm : u ∈ teachers := by simpa using hu
  constructor
  · intro hns
    simp only [noFieldsSent, Bool.and_eq_true, Option.isNone_iff_eq_none] at hns
    obtain ⟨⟨⟨⟨⟨h1, h2⟩, h3⟩, h4⟩, h5⟩, h6⟩ := hns
    have hdb1 : dateFieldBad payload.start_date = false := by
      unfold dateFieldBad; rw [h4]
    have hdb2 : dateFieldBad payload.end_date = false := by
      unfold dateFieldBad; rw [h5]
    have hb : buildUpdateData payload = Except.ok
        { title := none, message := none, priority := none,
          start_date := none, end_date := none, is_active := none } := by
      simp [buildUpdateData, hdb1, hdb2, h1, h2, h3, h4, h5, h6]
    simp [update_announcement, hm, hp, hf, hb, isEmptyUpdate]
  · intro db' msg hok
    obtain ⟨oid', old', ud, hp', hf', hb, _, _, hdb⟩ := update_ok_shape hok
    rw [hp] at hp'
    injection hp' with hoid
    subst hoid
    rw [hf] at hf'
    injection hf' with hold
    subst hold
    obtain ⟨t1, t2, t3, t4, t5, t6⟩ := buildUpdateData_ok hb
    refine ⟨applyUpdate old ud, hdb, ?_, ?_, ?_, ?_, ?_, ?_⟩
    · intro hskip
      have hn : ud.title = none := by
        rw [t1]; rcases hskip with h | h <;> simp [sentValue, h]
      simp [applyUpdate, hn]
    · intro hskip
      have hn : ud.message = none := by
        rw [t2]; rcases hskip with h | h <;> simp [sentValue, h]
      simp [applyUpdate, hn]
    · intro hskip
      have hn : ud.priority = none := by
        rw [t3]; rcases hskip with h | h <;> simp [sentValue, h]
      simp [applyUpdate, hn]
    · intro hskip
      have hn : ud.start_date = none := by
        rw [t4]; rcases hskip with h | h <;> simp [sentValue, h]
      simp [applyUpdate, hn]
    · intro hskip
      have hn : ud.end_date = none := by
        rw [t5]; rcases hskip with h | h <;> simp [sentValue, h]
      simp [applyUpdate, hn]
    · intro hskip
      have hn : ud.is_active = none := by
        rw [t6]; rcases hskip with h | h <;> simp [sentValue, h]
      simp [applyUpdate, hn]

/-- C6 witness: a payload whose only field is an explicit null is fully
skipped, and the update reports 400 with the collection unchanged. -/
theorem update_skips_absent_and_null_witness :
    (["teacher1"] : List String).contains "teacher1" = true ∧
    parseObjectId sampleOid = some sampleOid ∧
    ([sampleRec].find? (fun r => r._id == sampleOid) = some sampleRec) ∧
    noFieldsSent { title := some none } = true ∧
    update_announcement ["teacher1"] [sampleRec] sampleOid { title := some none } "teacher1" =
      ([sampleRec], Except.error ⟨400, "No valid fields to update"⟩) := by
  refine ⟨by decide, by decide, by decide, by decide, ?_⟩
  exact (update_skips_absent_and_null ["teacher1"] [sampleRec] sampleOid
    { title := some none } "teacher1" sampleOid sampleRec
    (by decide) (by decide) (by decide)).1 (by decide)

/-- C7: with an authorized caller, a found record and a nonempty filtered
payload, the update reports the 500 storage error exactly when applying the
`$set` changes nothing — in particular when every supplied value equals the
stored one, i.e. `modified_count == 0`. -/
theorem update_noop_is_storage_error (teachers : List String) (db : List Announcement)
    (id : String) (payload : AnnouncementUpdate) (u oid : String) (old : Announcement)
    (ud : UpdateData)
    (hu : teachers.contains u = true)
    (hp : parseObjectId id = some oid)
    (hf : db.find? (fun r => r._id == oid) = some old)
    (hb : buildUpdateData payload = Except.ok ud)
    (hne : isEmptyUpdate ud = false) :
    (update_announcement teachers db id payload u).2 =
        Except.error ⟨500, "Failed to update announcement"⟩ ↔
      applyUpdate old ud = old := by
  have hm : u ∈ teachers := by simpa using hu
  by_cases hn : applyUpdate old ud = old
  · simp [update_announcement, hm, hp, hf, hb, hne, hn]
  · simp [update_announcement, hm, hp, hf, hb, hne, hn]

/-- C7 witness: re-supplying the record's current title modifies nothing and
is reported as the 500 storage failure. -/
theorem update_noop_is_storage_error_witness :
    (update_announcement ["teacher1"] [sampleRec] sampleOid
        { title := some (some "Exam week") } "teacher1").2 =
      Except.error ⟨500, "Failed to update announcement"⟩ := by
  exact (update_noop_is_storage_error ["teacher1"] [sampleRec] sampleOid
    { title := some (some "Exam week") } "teacher1" sampleOid sampleRec
    { title := some "Exam week" }
    (by decide) (by decide) (by decide) rfl (by decide)).mpr (by decide)

/-- C8: for an authorized caller, a delete with a syntactically invalid
target identifier fails with 400 — a client error in the same 4xx
status class as not-found; a well-formed identifier matching no record
(including an already-deleted one) fails with 404 rather than crashing;
and only when a record matches is it removed. -/
theorem delete_announcement_spec (teachers : List String) (db : List Announcement)
    (id : String) (u : String) (hu : teachers.contains u = true) :
    (parseObjectId id = none →
      delete_announcement teachers db id u =
        (db, Except.error ⟨400, "Invalid announcement ID"⟩) ∧ 400 / 100 = 404 / 100) ∧
    (∀ oid, parseObjectId id = some oid → db.any (fun r => r._id == oid) = false →
      delete_announcement teachers db id u =
        (db, Except.error ⟨404, "Announcement not found"⟩)) ∧
    (∀ oid, parseObjectId id = some oid → db.any (fun r => r._id == oid) = true →
      delete_announcement teachers db id u =
        (removeFirst db oid, Except.ok "Announcement deleted successfully")) := by
  have hm : u ∈ teachers := by simpa using hu
  refine ⟨fun hp => ⟨by simp [delete_announcement, hm, hp], by decide⟩,
    fun oid hp hz => by simp [delete_announcement, hm, hp, hz],
    fun oid hp ha => by simp [delete_announcement, hm, hp, ha]⟩

/-- C8 witness: deleting a stored record removes it; repeating the same
delete on the resulting state reports 404 (idempotent effect-reporting). -/
theorem delete_announcement_spec_witness :
    delete_announcement ["teacher1"] [sampleRec] sampleOid "teacher1" =
      ([], Except.ok "Announcement deleted successfully") ∧
    delete_announcement ["teacher1"] [] sampleOid "teacher1" =
      ([], Except.error ⟨404, "Announcement not found"⟩) := by
  constructor
  · have h := (delete_announcement_spec ["teacher1"] [sampleRec] sampleOid "teacher1"
      (by decide)).2.2 sampleOid (by decide) (by decide)
    rw [show removeFirst [sampleRec] sampleOid = ([] : List Announcement) from rfl] at h
    exact h
  · exact (delete_announcement_spec ["teacher1"] [] sampleOid "teacher1"
      (by decide)).2.1 sampleOid (by decide) rfl

/-- Every record in the collection a create run leaves behind is either an
old record or the new document, and in the latter case the date validation
condition was passed. -/
theorem create_result_mem {teachers : List String} {db : List Announcement}
    {payload : AnnouncementCreate} {u now newId : String}
    {db' : List Announcement} {res : Except HTTPException String}
    (hc : create_announcement teachers db payload u now newId = (db', res))
    {a : Announcement} (ha : a ∈ db') :
    a ∈ db ∨
      (a = ⟨newId, payload.title, payload.message, payload.priority,
          payload.start_date, payload.end_date, u, now, payload.is_active⟩ ∧
        ((match payload.start_date with
            | some s => s != "" && !validDate s
            | none => false) || !validDate payload.end_date) = false) := by
  unfold create_announcement at hc
  by_cases h1 : teachers.contains u = true
  · rw [if_pos h1] at hc
    by_cases h2 : ((match payload.start_date with
        | some s => s != "" && !validDate s
        | none => false) || !validDate payload.end_date) = true
    · rw [if_pos h2] at hc
      injection hc with hdb _
      exact Or.inl (hdb ▸ ha)
    · rw [if_neg h2] at hc
      have hdb : db' = db ++ [⟨newId, payload.title, payload.message, payload.priority,
          payload.start_date, payload.end_date, u, now, payload.is_active⟩] := by
        by_cases h3 : newId = ""
        · rw [if_pos h3] at hc; injection hc with hdb _; exact hdb.symm
        · rw [if_neg h3] at hc; injection hc with hdb _; exact hdb.symm
      rw [hdb] at ha
      rcases List.mem_append.mp ha with hmem | hmem
      · exact Or.inl hmem
      · exact Or.inr ⟨List.mem_singleton.mp hmem, by simpa using h2⟩
  · rw [if_neg h1] at hc
    injection hc with hdb _
    exact Or.inl (hdb ▸ ha)

/-- A record produced by applying a filtered update to a record with only
empty-or-valid dates again has only empty-or-valid dates. -/
theorem applyUpdate_dateInvariant {old : Announcement} {ud : UpdateData}
    {payload : AnnouncementUpdate}
    (hb : buildUpdateData payload = Except.ok ud)
    (hold : dateInvariant old = true) :
    dateInvariant (applyUpdate old ud) = true := by
  obtain ⟨hs, he⟩ := buildUpdateData_date_ok hb
  unfold dateInvariant at hold ⊢
  rw [Bool.and_eq_true] at hold
  obtain ⟨ho1, ho2⟩ := hold
  rw [Bool.and_eq_true]
  constructor
  · rcases hv : ud.end_date with _ | v
    · simpa [applyUpdate, hv] using ho1
    · rcases he v hv with hve | hval
      · simp [applyUpdate, hv, dateEmptyOrValid, hve]
      · simp [applyUpdate, hv, dateEmptyOrValid, hval]
  · rcases hv : ud.start_date with _ | v
    · simpa [applyUpdate, hv] using ho2
    · rcases hs v hv with hve | hval
      · simp [applyUpdate, hv, Option.all, dateEmptyOrValid, hve]
      · simp [applyUpdate, hv, Option.all, dateEmptyOrValid, hval]

/-- Every record in the collection an update run leaves behind is either an
old record or the applied update of the found record with a successfully
filtered payload. -/
theorem update_result_mem {teachers : List String} {db : List Announcement}
    {id : String} {payload : AnnouncementUpdate} {u : String}
    {db' : List Announcement} {res : Except HTTPException String}
    (h : update_announcement teachers db id payload u = (db', res))
    {a : Announcement} (ha : a ∈ db') :
    a ∈ db ∨
      ∃ old ud, old ∈ db ∧ buildUpdateData payload = Except.ok ud ∧
        a = applyUpdate old ud := by
  unfold update_announcement at h
  split at h
  · split at h
    next hp => injection h with hdb _; exact Or.inl (hdb ▸ ha)
    next oid hp =>
      split at h
      next hf => injection h with hdb _; exact Or.inl (hdb ▸ ha)
      next old hf =>
        split at h
        next e hb => injection h with hdb _; exact Or.inl (hdb ▸ ha)
        next ud hb =>
          split at h
          next he => injection h with hdb _; exact Or.inl (hdb ▸ ha)
          next he =>
            have hmem : old ∈ db := List.mem_of_find?_eq_some hf
            split at h
            next hn =>
              injection h with hdb _
              rw [← hdb] at ha
              rcases mem_replaceFirst ha with h1 | h1
              · exact Or.inr ⟨old, ud, hmem, hb, h1⟩
              · exact Or.inl h1
            next hn =>
              injection h with hdb _
              rw [← hdb] at ha
              rcases mem_replaceFirst ha with h1 | h1
              · exact Or.inr ⟨old, ud, hmem, hb, h1⟩
              · exact Or.inl h1
  · injection h with hdb _; exact Or.inl (hdb ▸ ha)

/-- C9 counterexample: an update supplying `end_date = ""` succeeds and
persists the empty string, which is not a valid `YYYY-MM-DD` date — the
truthiness test `and value` skips validation for empty strings. -/
theorem update_persists_empty_end_date :
    update_announcement ["teacher1"] [sampleRec] sampleOid
        { end_date := some (some "") } "teacher1" =
      ([{ sampleRec with end_date := "" }], Except.ok "Announcement updated successfully") ∧
    validDate "" = false := ⟨rfl, rfl⟩

/-- C9 amended: create persists only documents whose `end_date` parses and
whose `start_date`, when present, is empty or parses; update preserves the
weaker invariant that every stored date value is empty or parseable — a
malformed non-empty date can never be persisted, but empty-string dates
can be (via update, and via create for `start_date`). -/
theorem stored_dates_empty_or_valid :
    (∀ (teachers : List String) (db : List Announcement) (payload : AnnouncementCreate)
        (u now newId : String) (db' : List Announcement) (res : Except HTTPException String),
      create_announcement teachers db payload u now newId = (db', res) →
      ∀ a, a ∈ db' → a ∈ db ∨
        (validDate a.end_date = true ∧ a.start_date.all dateEmptyOrValid = true)) ∧
    (∀ (teachers : List String) (db : List Announcement) (id : String)
        (payload : AnnouncementUpdate) (u : String) (db' : List Announcement)
        (res : Except HTTPException String),
      update_announcement teachers db id payload u = (db', res) →
      (∀ a, a ∈ db → dateInvariant a = true) →
      ∀ a, a ∈ db' → dateInvariant a = true) := by
  constructor
  · intro teachers db payload u now newId db' res hc a ha
    rcases create_result_mem hc ha with hmem | ⟨hdoc, hcond⟩
    · exact Or.inl hmem
    · right
      subst hdoc
      have hendf : validDate payload.end_date = true := by
        cases hv : validDate payload.end_date
        · rw [hv] at hcond; simp at hcond
        · rfl
      have hstartf : (match payload.start_date with
          | some s => s != "" && !validDate s
          | none => false) = false := by
        cases hm1 : (match payload.start_date with
            | some s => s != "" && !validDate s
            | none => false)
        · rfl
        · rw [hm1] at hcond; simp at hcond
      refine ⟨hendf, ?_⟩
      rcases hsd : payload.start_date with _ | s
      · rfl
      · rw [hsd] at hstartf
        have hstartf2 : (s != "" && !validDate s) = false := hstartf
        show dateEmptyOrValid s = true
        unfold dateEmptyOrValid
        by_cases hse : s = ""
        · simp [hse]
        · have hvs : validDate s = true := by
            cases hvs : validDate s
            · exfalso; rw [hvs] at hstartf2; simp [hse] at hstartf2
            · rfl
          simp [hvs]
  · intro teachers db id payload u db' res hup hinv a ha
    rcases update_result_mem hup ha with hmem | ⟨old, ud, hmem, hb, hdoc⟩
    · exact hinv a hmem
    · rw [hdoc]
      exact applyUpdate_dateInvariant hb (hinv old hmem)

/-- C9 witness: a concrete successful create, with the new document
satisfying the date conditions the amended invariant asserts. -/
theorem stored_dates_empty_or_valid_witness :
    create_announcement ["teacher1"] []
        { title := "T", message := "M", end_date := "2024-01-02" }
        "teacher1" "2024-01-01T00:00:00" sampleOid =
      ([⟨sampleOid, "T", "M", some "medium", none, "2024-01-02", "teacher1",
          "2024-01-01T00:00:00", some true⟩], Except.ok sampleOid) ∧
    ((⟨sampleOid, "T", "M", some "medium", none, "2024-01-02", "teacher1",
        "2024-01-01T00:00:00", some true⟩ : Announcement) ∈ ([] : List Announcement) ∨
      (validDate "2024-01-02" = true ∧
        (none : Option String).all dateEmptyOrValid = true)) := by
  refine ⟨rfl, ?_⟩
  exact stored_dates_empty_or_valid.1 ["teacher1"] []
    { title := "T", message := "M", end_date := "2024-01-02" }
    "teacher1" "2024-01-01T00:00:00" sampleOid _ _ rfl
    ⟨sampleOid, "T", "M", some "medium", none, "2024-01-02", "teacher1",
      "2024-01-01T00:00:00", some true⟩ (by decide)

/-- C10 counterexample: a create whose title is the empty string succeeds
and persists a record with an empty title — title non-emptiness is nowhere
enforced. -/
theorem create_persists_empty_title :
    create_announcement ["teacher1"] []
        { title := "", message := "M", end_date := "2024-01-02" }
        "teacher1" "2024-01-01T00:00:00" sampleOid =
      ([⟨sampleOid, "", "M", some "medium", none, "2024-01-02", "teacher1",
          "2024-01-01T00:00:00", some true⟩], Except.ok sampleOid) ∧
    (⟨sampleOid, "", "M", some "medium", none, "2024-01-02", "teacher1",
        "2024-01-01T00:00:00", some true⟩ : Announcement).title = "" := ⟨rfl, rfl⟩

/-- C10 amended: the title is persisted verbatim and unvalidated — every
record a create run adds carries exactly the client-supplied title (empty
included), and an update supplying a non-null title (empty included) sets
exactly that value on the target record. -/
theorem title_not_validated :
    (∀ (teachers : List String) (db : List Announcement) (payload : AnnouncementCreate)
        (u now newId : String) (db' : List Announcement) (res : Except HTTPException String),
      create_announcement teachers db payload u now newId = (db', res) →
      ∀ a, a ∈ db' → a ∈ db ∨ a.title = payload.title) ∧
    (∀ (teachers : List String) (db : List Announcement) (id : String)
        (payload : AnnouncementUpdate) (u t oid : String) (old : Announcement)
        (db' : List Announcement) (msg : String),
      parseObjectId id = some oid →
      db.find? (fun r => r._id == oid) = some old →
      sentValue payload.title = some t →
      update_announcement teachers db id payload u = (db', Except.ok msg) →
      ∃ new, db' = replaceFirst db oid new ∧ new.title = t) := by
  constructor
  · intro teachers db payload u now newId db' res hc a ha
    rcases create_result_mem hc ha with hmem | ⟨hdoc, _⟩
    · exact Or.inl hmem
    · exact Or.inr (by rw [hdoc])
  · intro teachers db id payload u t oid old db' msg hp hf ht hok
    obtain ⟨oid', old', ud, hp', hf', hb, _, _, hdb⟩ := update_ok_shape hok
    rw [hp] at hp'
    injection hp' with hoid
    subst hoid
    rw [hf] at hf'
    injection hf' with hold
    subst hold
    obtain ⟨t1, _, _, _, _, _⟩ := buildUpdateData_ok hb
    refine ⟨applyUpdate old ud, hdb, ?_⟩
    have hn : ud.title = some t := by rw [t1, ht]
    simp [applyUpdate, hn]

/-- C10 witness: an update supplying an empty title sets the stored title
to the empty string. -/
theorem title_not_validated_witness :
    sentValue ({ title := some (some "") } : AnnouncementUpdate).title = some "" ∧
    ∃ new, ({ sampleRec with title := "" } :: ([] : List Announcement)) =
        replaceFirst [sampleRec] sampleOid new ∧ new.title = "" := by
  refine ⟨rfl, ?_⟩
  exact title_not_validated.2 ["teacher1"] [sampleRec] sampleOid
    { title := some (some "") } "teacher1" "" sampleOid sampleRec
    [{ sampleRec with title := "" }] "Announcement updated successfully"
    (by decide) (by decide) rfl rfl
